import Mathlib

/-!
Verification of the typed-method-registry and safe-dispatch core of the
typesafe-api repository.

The embedding follows the source files:
- packages/api/src/framework.ts: ApiMethodSpec, ApiService, callApiMethodSafe
- packages/api/src/add.ts and subtract.ts: the two demo method specs
- packages/api/src/mathService.ts: the registry composing them

Modelling decisions, stated once here:
- Untyped runtime data (JSON values crossing the wire) is the inductive
  type Value.  JavaScript objects are modelled as finite key-value lists
  looked up by first match.
- The registry is a plain object literal, so the JavaScript in operator
  that callApiMethodSafe uses as its membership test also finds the
  members every object literal inherits from Object.prototype (toString,
  constructor, hasOwnProperty, ...).  jsIn models that test: own keys or
  inherited prototype members.  For an inherited name, property access
  yields the inherited function, whose input field is undefined, and the
  subsequent safeParse access throws a TypeError; that uncaught crash is
  modelled as the typeError outcome.
- JavaScript numbers are modelled as Int.  Every arithmetic the repository
  performs is integer addition and subtraction on validated fields, so no
  floating-point behaviour is observable in the modelled claims.
- The zod validator is used in the repository only as z.object of z.number
  fields.  ObjectSchema.safeParse models exactly that fragment of zod:
  a non-object input fails; each declared field must be present and parse;
  issues for all failing fields are collected; on success the parsed data
  contains only the declared keys (zod default strip mode) in schema order.
  Zod renders its issue list into one message string; renderIssues models
  that deterministic rendering.
- The implementations are async but only ever Promise.resolve of a pure
  value, so ApiMethodSpec.method is a pure function Value -> Value.
- callApiMethodSafe throws on unknown method or validation failure; thrown
  errors are modelled as Except.error with a DispatchError classifying the
  two failure shapes the dispatcher itself produces.
- dispatchRun is the instrumented semantics of the same source function:
  it additionally records the ordered trace of observable steps (lookup,
  validate, invoke) and threads the registry value through the call, so
  invocation counts, step ordering and the frame condition on the registry
  are statable.  Its outcome component coincides with callApiMethodSafe.
-/

namespace TypesafeApi

/-- Untyped JSON-like runtime values, as handled by the dispatcher before
validation. -/
inductive Value where
  | null
  | bool (b : Bool)
  | num (n : Int)
  | str (s : String)
  | obj (entries : List (String × Value))

/-- Name of a value's runtime type, as zod reports it in error messages. -/
def Value.typeName : Value → String
  | .null => "null"
  | .bool _ => "boolean"
  | .num _ => "number"
  | .str _ => "string"
  | .obj _ => "object"

/-- First-match lookup of a key in an object's entry list (JavaScript
property access on a plain object). -/
def lookupEntry : List (String × Value) → String → Option Value
  | [], _ => none
  | (k, v) :: rest, key => if k = key then some v else lookupEntry rest key

/-- The zod field schemas the repository uses inside z.object: only
z.number(). -/
inductive FieldSchema where
  | number

/-- A zod object schema, z.object with the listed fields.  This is the only
schema shape the math service registers. -/
structure ObjectSchema where
  fields : List (String × FieldSchema)

/-- Parse one declared field's value against its field schema. -/
def parseField : FieldSchema → Value → Except String Value
  | .number, .num n => .ok (.num n)
  | .number, v => .error ("Expected number, received " ++ v.typeName)

/-- Walk the declared fields, collecting the issues for every failing field
and the parsed entries for the succeeding ones.  Undeclared input entries
are never consulted, which is zod's default strip behaviour. -/
def parseFields : List (String × FieldSchema) → List (String × Value) →
    List String × List (String × Value)
  | [], _ => ([], [])
  | (key, fs) :: rest, entries =>
    let tail := parseFields rest entries
    match lookupEntry entries key with
    | none => (("Required: " ++ key) :: tail.1, tail.2)
    | some v =>
      match parseField fs v with
      | .error e => ((key ++ ": " ++ e) :: tail.1, tail.2)
      | .ok pv => (tail.1, (key, pv) :: tail.2)

/-- The zod safeParse for an object schema: success returns the parsed data
(declared keys only), failure returns the collected issue list. -/
def ObjectSchema.safeParse (s : ObjectSchema) (v : Value) :
    Except (List String) Value :=
  match v with
  | .obj entries =>
    let r := parseFields s.fields entries
    if r.1.isEmpty then .ok (.obj r.2) else .error r.1
  | other => .error ["Expected object, received " ++ other.typeName]

/-- Deterministic rendering of a zod issue list into the single message
string carried by the thrown validation error. -/
def renderIssues (issues : List String) : String :=
  String.intercalate "; " issues

/-- The definition of an API method: an input validator paired with an
implementation, as in framework.ts. -/
structure ApiMethodSpec where
  input : ObjectSchema
  method : Value → Value

/-- Convenience constructor from framework.ts; it returns its argument. -/
def createApiMethod (spec : ApiMethodSpec) : ApiMethodSpec :=
  spec

/-- A service registry: a mapping from method name to method spec, modelled
as a finite key-value list with first-match lookup. -/
abbrev ApiService := List (String × ApiMethodSpec)

/-- Lookup of a registered method by name: the own properties of the
service object literal.  Property access for a name this misses but the
prototype chain supplies is handled separately in the dispatcher. -/
def lookupSpec : ApiService → String → Option ApiMethodSpec
  | [], _ => none
  | (k, spec) :: rest, m => if k = m then some spec else lookupSpec rest m

/-- Property names every plain object literal inherits from
Object.prototype, which the JavaScript in operator and property access
therefore find even though they name no registered method. -/
def objectPrototypeKeys : List String :=
  ["constructor", "hasOwnProperty", "isPrototypeOf", "propertyIsEnumerable",
    "toLocaleString", "toString", "valueOf", "__defineGetter__",
    "__defineSetter__", "__lookupGetter__", "__lookupSetter__", "__proto__"]

/-- The JavaScript expression testing method in service for a plain object
literal: true when the name is an own key of the registry or an inherited
Object.prototype member. -/
def jsIn (service : ApiService) (m : String) : Bool :=
  (lookupSpec service m).isSome || objectPrototypeKeys.contains m

/-- The failure shapes a dispatch can produce when it throws: the two the
dispatcher classifies itself, and the uncaught TypeError raised when an
inherited prototype name passes the membership test and the inherited
function's undefined input field is dereferenced. -/
inductive DispatchError where
  | unknownMethod (message : String)
  | validationFailed (message : String)
  | typeError (message : String)

/-- The failure kind, for stating that two runs fail the same way. -/
def DispatchError.kindName : DispatchError → String
  | .unknownMethod _ => "UnknownMethod"
  | .validationFailed _ => "ValidationFailed"
  | .typeError _ => "TypeError"

/-- The message carried by a dispatch failure. -/
def DispatchError.message : DispatchError → String
  | .unknownMethod m => m
  | .validationFailed m => m
  | .typeError m => m

/-- Recognizer for the ValidationFailed outcome. -/
def isValidationFailure : Except DispatchError Value → Bool
  | .error (.validationFailed _) => true
  | _ => false

/-- The dispatcher callApiMethodSafe from framework.ts: test the name with
the in operator and throw UnknownMethod if it fails, read the property,
validate the raw input with the spec's validator, throw ValidationFailed
if it fails, otherwise invoke the implementation on the validated data and
return its result.  When the in test passes through an inherited prototype
member rather than a registered method, the read value is the inherited
function, its input field is undefined, and the safeParse access throws a
TypeError before any validation runs. -/
def callApiMethodSafe (service : ApiService) (method : String)
    (input : Value) : Except DispatchError Value :=
  if jsIn service method = false then
    .error (.unknownMethod ("Unrecognized method name " ++ method))
  else
    match lookupSpec service method with
    | none =>
      .error (.typeError "Cannot read properties of undefined (reading safeParse)")
    | some spec =>
      match spec.input.safeParse input with
      | .error issues =>
        .error (.validationFailed ("Validation failed: " ++ renderIssues issues))
      | .ok data => .ok (spec.method data)

/-- Observable steps of one dispatch, in the order they are executed. -/
inductive Event where
  | lookup (methodName : String)
  | validate (rawInput : Value)
  | invoke (typedInput : Value)

/-- Result of the instrumented dispatcher: the outcome, the ordered trace of
observable steps, and the registry value as left after the call. -/
structure DispatchRun where
  outcome : Except DispatchError Value
  events : List Event
  finalService : ApiService

/-- Instrumented semantics of callApiMethodSafe, line for line the same
control flow, recording each step it performs and threading the registry
value it reads so that the frame condition is statable. -/
def dispatchRun (service : ApiService) (method : String) (input : Value) :
    DispatchRun :=
  if jsIn service method = false then
    ⟨.error (.unknownMethod ("Unrecognized method name " ++ method)),
      [.lookup method], service⟩
  else
    match lookupSpec service method with
    | none =>
      ⟨.error (.typeError "Cannot read properties of undefined (reading safeParse)"),
        [.lookup method], service⟩
    | some spec =>
      match spec.input.safeParse input with
      | .error issues =>
        ⟨.error (.validationFailed ("Validation failed: " ++ renderIssues issues)),
          [.lookup method, .validate input], service⟩
      | .ok data =>
        ⟨.ok (spec.method data),
          [.lookup method, .validate input, .invoke data], service⟩

/-- The arguments of the implementation invocations recorded in a trace. -/
def invocations : List Event → List Value
  | [] => []
  | .invoke y :: rest => y :: invocations rest
  | .lookup _ :: rest => invocations rest
  | .validate _ :: rest => invocations rest

/-- Implementation of the add method from add.ts: it reads the augend and
addend fields of the validated input and returns an object with their sum.
The fallthrough branches are unreachable from dispatch because the
validator guarantees both fields are numbers. -/
def addImpl : Value → Value
  | .obj entries =>
    match lookupEntry entries "augend", lookupEntry entries "addend" with
    | some (.num a), some (.num b) => .obj [("sum", .num (a + b))]
    | _, _ => .null
  | _ => .null

/-- The add method spec from add.ts: z.object with number fields augend and
addend, implementation returning their sum. -/
def add : ApiMethodSpec :=
  createApiMethod ⟨⟨[("augend", .number), ("addend", .number)]⟩, addImpl⟩

/-- Implementation of the subtract method from subtract.ts: it reads the
minuend and subtrahend fields of the validated input and returns an object
with their difference. -/
def subtractImpl : Value → Value
  | .obj entries =>
    match lookupEntry entries "minuend", lookupEntry entries "subtrahend" with
    | some (.num a), some (.num b) => .obj [("difference", .num (a - b))]
    | _, _ => .null
  | _ => .null

/-- The subtract method spec from subtract.ts. -/
def subtract : ApiMethodSpec :=
  createApiMethod
    ⟨⟨[("minuend", .number), ("subtrahend", .number)]⟩, subtractImpl⟩

/-- The math service registry from mathService.ts, composing add and
subtract. -/
def mathService : ApiService :=
  [("add", add), ("subtract", subtract)]

/-- Claim C1 states that every method name that is not a registered key
yields Failure(UnknownMethod) with the message naming it.  The code falls
short of that: its membership test is the JavaScript in operator on a
plain object literal, which also finds the members inherited from
Object.prototype, so for the unregistered name toString the dispatcher
passes the test, reads the inherited function whose input field is
undefined, and crashes with a TypeError instead of the promised
UnknownMethod failure.  This theorem records the divergence at the failing
input and that the claimed behaviour does hold at the multiply instance,
whose name is on no prototype chain. -/
theorem C1_unknown_method :
    lookupSpec mathService "toString" = none ∧
    callApiMethodSafe mathService "toString" .null =
      .error (.typeError
        "Cannot read properties of undefined (reading safeParse)") ∧
    callApiMethodSafe mathService "multiply"
        (.obj [("a", .num 1), ("b", .num 2)]) =
      .error (.unknownMethod "Unrecognized method name multiply") :=
  ⟨rfl, rfl, rfl⟩

/-- Claim C2: for every registered method and every input its validator
accepts with typed value y, dispatch returns Success of the implementation
applied to y, and the trace records exactly one invocation, with argument
y. -/
theorem C2_valid_input_invokes_once (service : ApiService) (m : String)
    (x : Value) (spec : ApiMethodSpec) (y : Value)
    (hl : lookupSpec service m = some spec)
    (hv : spec.input.safeParse x = .ok y) :
    callApiMethodSafe service m x = .ok (spec.method y) ∧
    invocations (dispatchRun service m x).events = [y] := by
  have hin : jsIn service m = true := by simp [jsIn, hl]
  constructor
  · simp [callApiMethodSafe, hin, hl, hv]
  · simp [dispatchRun, hin, hl, hv, invocations]

/-- Claim C2, witnessed by dispatching add on the math service at the valid
input of Scenario A. -/
theorem C2_valid_input_invokes_once_witness :
    callApiMethodSafe mathService "add"
        (.obj [("augend", .num 2), ("addend", .num 2)]) =
      .ok (.obj [("sum", .num 4)]) ∧
    invocations (dispatchRun mathService "add"
        (.obj [("augend", .num 2), ("addend", .num 2)])).events =
      [.obj [("augend", .num 2), ("addend", .num 2)]] :=
  C2_valid_input_invokes_once mathService "add"
    (.obj [("augend", .num 2), ("addend", .num 2)]) add
    (.obj [("augend", .num 2), ("addend", .num 2)]) rfl rfl

/-- Claim C3: for every registered method and every input its validator
rejects, dispatch fails with ValidationFailed carrying a message derived
from the validator's issues, the trace is exactly lookup followed by
validate, so the implementation is never invoked; and in every dispatch the
trace is a prefix of lookup, validate, invoke in that strict order. -/
theorem C3_validation_failure_no_invoke (service : ApiService) (m : String)
    (x : Value) (spec : ApiMethodSpec) (issues : List String)
    (hl : lookupSpec service m = some spec)
    (hv : spec.input.safeParse x = .error issues) :
    callApiMethodSafe service m x =
      .error (.validationFailed ("Validation failed: " ++ renderIssues issues)) ∧
    (dispatchRun service m x).events = [.lookup m, .validate x] ∧
    invocations (dispatchRun service m x).events = [] ∧
    (∀ (s : ApiService) (m' : String) (x' : Value),
      (dispatchRun s m' x').events = [.lookup m'] ∨
      (dispatchRun s m' x').events = [.lookup m', .validate x'] ∨
      ∃ y, (dispatchRun s m' x').events =
        [.lookup m', .validate x', .invoke y]) := by
  have hin : jsIn service m = true := by simp [jsIn, hl]
  refine ⟨?_, ?_, ?_, ?_⟩
  · simp [callApiMethodSafe, hin, hl, hv]
  · simp [dispatchRun, hin, hl, hv]
  · simp [dispatchRun, hin, hl, hv, invocations]
  · intro s m' x'
    cases hin' : jsIn s m' with
    | false => simp [dispatchRun, hin']
    | true =>
      cases h1 : lookupSpec s m' with
      | none => simp [dispatchRun, hin', h1]
      | some spec' =>
        cases h2 : spec'.input.safeParse x' with
        | error i => simp [dispatchRun, hin', h1, h2]
        | ok y => exact Or.inr (Or.inr ⟨y, by simp [dispatchRun, hin', h1, h2]⟩)

/-- Claim C3, witnessed by dispatching add on the math service at the
ill-typed input of Scenario D. -/
theorem C3_validation_failure_no_invoke_witness :
    callApiMethodSafe mathService "add"
        (.obj [("augend", .str "two"), ("addend", .num 2)]) =
      .error (.validationFailed
        "Validation failed: augend: Expected number, received string") ∧
    (dispatchRun mathService "add"
        (.obj [("augend", .str "two"), ("addend", .num 2)])).events =
      [.lookup "add",
        .validate (.obj [("augend", .str "two"), ("addend", .num 2)])] ∧
    invocations (dispatchRun mathService "add"
        (.obj [("augend", .str "two"), ("addend", .num 2)])).events = [] :=
  have h := C3_validation_failure_no_invoke mathService "add"
    (.obj [("augend", .str "two"), ("addend", .num 2)]) add
    ["augend: Expected number, received string"] rfl rfl
  ⟨h.1, h.2.1, h.2.2.1⟩

/-- Claim C4: dispatching add with a string augend fails validation, and
dispatching add with the addend field missing fails validation. -/
theorem C4_invalid_add_inputs :
    isValidationFailure (callApiMethodSafe mathService "add"
      (.obj [("augend", .str "two"), ("addend", .num 2)])) = true ∧
    isValidationFailure (callApiMethodSafe mathService "add"
      (.obj [("augend", .num 2)])) = true :=
  ⟨rfl, rfl⟩

/-- Claim C5: dispatching add at augend 2 and addend 2 yields Success of
sum 4, and for all integers a and b the add implementation maps augend a
and addend b to their sum. -/
theorem C5_add_correct :
    callApiMethodSafe mathService "add"
        (.obj [("augend", .num 2), ("addend", .num 2)]) =
      .ok (.obj [("sum", .num 4)]) ∧
    ∀ a b : Int,
      add.method (.obj [("augend", .num a), ("addend", .num b)]) =
        .obj [("sum", .num (a + b))] :=
  ⟨rfl, fun _ _ => rfl⟩

/-- Claim C6: dispatching subtract at minuend 10 and subtrahend 3 yields
Success of difference 7, and for all integers a and b the subtract
implementation maps minuend a and subtrahend b to their difference. -/
theorem C6_subtract_correct :
    callApiMethodSafe mathService "subtract"
        (.obj [("minuend", .num 10), ("subtrahend", .num 3)]) =
      .ok (.obj [("difference", .num 7)]) ∧
    ∀ a b : Int,
      subtract.method (.obj [("minuend", .num a), ("subtrahend", .num b)]) =
        .obj [("difference", .num (a - b))] :=
  ⟨rfl, fun _ _ => rfl⟩

/-- Claim C7: dispatch is a pure function of the registry, the method name
and the input, so whenever it fails, two runs on the same arguments produce
the same failure with the same kind and the same message. -/
theorem C7_failure_determinism (service : ApiService) (m : String)
    (x : Value) (e₁ e₂ : DispatchError)
    (h₁ : callApiMethodSafe service m x = .error e₁)
    (h₂ : callApiMethodSafe service m x = .error e₂) :
    e₁ = e₂ ∧ e₁.kindName = e₂.kindName ∧ e₁.message = e₂.message := by
  rw [h₁] at h₂
  injection h₂ with h
  subst h
  exact ⟨rfl, rfl, rfl⟩

/-- Claim C7, witnessed by two runs of the failing multiply dispatch of
Scenario C. -/
theorem C7_failure_determinism_witness :
    DispatchError.unknownMethod "Unrecognized method name multiply" =
      DispatchError.unknownMethod "Unrecognized method name multiply" ∧
    DispatchError.kindName
        (DispatchError.unknownMethod "Unrecognized method name multiply") =
      DispatchError.kindName
        (DispatchError.unknownMethod "Unrecognized method name multiply") ∧
    DispatchError.message
        (DispatchError.unknownMethod "Unrecognized method name multiply") =
      DispatchError.message
        (DispatchError.unknownMethod "Unrecognized method name multiply") :=
  C7_failure_determinism mathService "multiply"
    (.obj [("a", .num 1), ("b", .num 2)])
    (.unknownMethod "Unrecognized method name multiply")
    (.unknownMethod "Unrecognized method name multiply") rfl rfl

/-- Claim C8: every dispatch leaves the registry unchanged, whether it
succeeds or fails; the instrumented run returns the registry it was given,
its trace holds no mutation step by construction, and its outcome is the
dispatch outcome. -/
theorem C8_registry_unchanged (service : ApiService) (m : String)
    (x : Value) :
    (dispatchRun service m x).finalService = service ∧
    (dispatchRun service m x).outcome = callApiMethodSafe service m x := by
  cases hin : jsIn service m with
  | false => simp [dispatchRun, callApiMethodSafe, hin]
  | true =>
    cases h1 : lookupSpec service m with
    | none => simp [dispatchRun, callApiMethodSafe, hin, h1]
    | some spec =>
      cases h2 : spec.input.safeParse x with
      | error i => simp [dispatchRun, callApiMethodSafe, hin, h1, h2]
      | ok y => simp [dispatchRun, callApiMethodSafe, hin, h1, h2]

/-- Claim C9: on validation success the implementation receives the
validator's parsed output, which for the add schema contains exactly the
declared fields; hence the dispatch result depends only on the augend and
addend entries of the input and undeclared entries are stripped before
invocation. -/
theorem C9_strips_undeclared_fields (entries : List (String × Value))
    (a b : Int)
    (ha : lookupEntry entries "augend" = some (.num a))
    (hb : lookupEntry entries "addend" = some (.num b)) :
    add.input.safeParse (.obj entries) =
      .ok (.obj [("augend", .num a), ("addend", .num b)]) ∧
    callApiMethodSafe mathService "add" (.obj entries) =
      .ok (.obj [("sum", .num (a + b))]) := by
  have hparse : add.input.safeParse (.obj entries) =
      .ok (.obj [("augend", .num a), ("addend", .num b)]) := by
    simp [add, createApiMethod, ObjectSchema.safeParse, parseFields,
      parseField, ha, hb]
  refine ⟨hparse, ?_⟩
  have hl : lookupSpec mathService "add" = some add := rfl
  have hin : jsIn mathService "add" = true := rfl
  have hstep : callApiMethodSafe mathService "add" (.obj entries) =
      .ok (add.method (.obj [("augend", .num a), ("addend", .num b)])) := by
    simp [callApiMethodSafe, hin, hl, hparse]
  rw [hstep]
  rfl

/-- Claim C9, witnessed at the add input of Scenario A extended with an
undeclared extra field, which is stripped. -/
theorem C9_strips_undeclared_fields_witness :
    add.input.safeParse
        (.obj [("augend", .num 2), ("addend", .num 2), ("extra", .num 1)]) =
      .ok (.obj [("augend", .num 2), ("addend", .num 2)]) ∧
    callApiMethodSafe mathService "add"
        (.obj [("augend", .num 2), ("addend", .num 2), ("extra", .num 1)]) =
      .ok (.obj [("sum", .num 4)]) :=
  C9_strips_undeclared_fields
    [("augend", .num 2), ("addend", .num 2), ("extra", .num 1)] 2 2 rfl rfl

end TypesafeApi
